import Mathlib

/-!
Verification development for the Cebu calamity-response dashboard.

The embedding below translates the cache/fallback/retry core of
src/app/api/emergencies/route.ts and the geospatial matcher of
src/utils/geospatial.ts into Lean.  JavaScript numbers are modelled by
Int (timestamps, counts, people counts) and by Rat where fractional
coordinates and distances occur.  Asynchronous effects (the upstream
network fetch, the blob-store read) are modelled by passing the outcome
of the effect as an explicit argument; JSON fields that a response may
omit are modelled by Option, and the boolean field stale, which the
route omits on non-degraded paths, is modelled as the Bool false on
those paths (an absent JSON boolean reads as falsy).
-/

/-- An emergency record.  Only the fields the core logic inspects are
carried: the route's data-quality filter looks at numberOfPeople alone;
the opaque identity is kept so that distinct records stay distinct. -/
structure Emergency where
  id : String
  numberOfPeople : Int
deriving DecidableEq, Repr

/-- The EmergencyResponse envelope of src/types/emergency.ts as used by
the route: a success flag, a count field and the record collection. -/
structure EmergencyResponse where
  success : Bool
  count : Int
  data : List Emergency
deriving DecidableEq, Repr

/-- A raw JSON body as it arrives from the upstream API or the blob
store, before structural validation: the data field may be missing
(dataField = none models a body whose data member is absent or not an
array, which the route rejects). -/
structure RawBody where
  success : Bool
  count : Int
  dataField : Option (List Emergency)
deriving DecidableEq, Repr

/-- filterValidEmergencies from src/app/api/emergencies/route.ts lines
17-31: keep the records with numberOfPeople <= 3000 and recompute count
as the length of the filtered collection. -/
def filterValidEmergencies (d : EmergencyResponse) : EmergencyResponse :=
  let filteredData := d.data.filter (fun e => e.numberOfPeople ≤ 3000)
  { d with data := filteredData, count := (filteredData.length : Int) }

/-- Outcome of one network interaction: either the transport layer
failed (missing env var, network error, timeout, non-2xx status --- all
of which the route surfaces as a thrown Error with a message), or a
parsed JSON body was obtained. -/
inductive FetchOutcome where
  | fail (msg : String)
  | respond (raw : RawBody)
deriving DecidableEq, Repr

/-- fetchFromUpstreamAPI (route.ts lines 90-127): on a transport
failure the error propagates; a body that fails the structural check
(!data.success or missing / non-array data) raises the fixed message;
a valid body is passed through filterValidEmergencies. -/
def fetchFromUpstreamAPI (o : FetchOutcome) : Except String EmergencyResponse :=
  match o with
  | .fail msg => .error msg
  | .respond raw =>
    match raw.dataField with
    | none => .error ("Invalid API response structure")
    | some l =>
      if raw.success then .ok (filterValidEmergencies ⟨raw.success, raw.count, l⟩)
      else .error ("Invalid API response structure")

/-- fetchFromBlobStorage (route.ts lines 53-87): every failure inside
the body --- missing blob, failed download, invalid structure --- is
caught and re-thrown as the single fixed message of line 85; a valid
body is passed through filterValidEmergencies (line 79). -/
def fetchFromBlobStorage (o : FetchOutcome) : Except String EmergencyResponse :=
  match o with
  | .fail _ => .error ("Failed to load emergency data from blob storage")
  | .respond raw =>
    match raw.dataField with
    | none => .error ("Failed to load emergency data from blob storage")
    | some l =>
      if raw.success then .ok (filterValidEmergencies ⟨raw.success, raw.count, l⟩)
      else .error ("Failed to load emergency data from blob storage")

/-- The module-level mutable state of route.ts lines 9-12: the
in-memory snapshot, the two timestamps (milliseconds), and the
single-flight retry flag. -/
structure CacheState where
  cachedData : Option EmergencyResponse
  lastFetchTime : Int
  lastSuccessfulFetchTime : Int
  isRetryingUpstream : Bool
deriving DecidableEq, Repr

/-- CACHE_DURATION, route.ts line 13: five minutes in milliseconds. -/
def CACHE_DURATION : Int := 5 * 60 * 1000

/-- RETRY_INTERVAL, route.ts line 14: five minutes in milliseconds. -/
def RETRY_INTERVAL : Int := 5 * 60 * 1000

/-- The JSON payload of a 200 response of GET.  lastUpdated and
nextUpdate are ISO strings derived injectively from timestamps, so they
are modelled by the timestamps themselves; nextUpdate and errorNote are
absent on some paths, hence Option; stale is absent (falsy) except on
the degraded path; maxAge is the max-age value of the Cache-Control
header the path attaches. -/
structure DataPayload where
  success : Bool
  count : Int
  data : List Emergency
  cached : Bool
  stale : Bool
  lastUpdated : Int
  nextUpdate : Option Int
  errorNote : Option String
  cacheSource : String
  maxAge : Int
deriving DecidableEq, Repr

/-- The JSON payload of the 500 response of GET (route.ts lines
287-296): the fixed message plus the two underlying error messages. -/
structure ErrorPayload where
  error : String
  apiError : String
  blobError : String
deriving DecidableEq, Repr

/-- A boundary response of GET: either a 200 with data or a 500 with
the error envelope. -/
inductive GetResponse where
  | ok (p : DataPayload)
  | failure (e : ErrorPayload)
deriving DecidableEq, Repr

/-- Result of one GET invocation: the response, the state left behind,
the delays (ms) of the setTimeout(retryUpstreamAPI, _) calls issued,
and the snapshots written through to blob storage (best-effort). -/
structure GetResult where
  response : GetResponse
  state : CacheState
  scheduledRetries : List Int
  blobWrites : List EmergencyResponse
deriving DecidableEq, Repr

/-- Environment of one GET invocation: the current wall clock and the
outcomes the two external sources would deliver if consulted. -/
structure GetEnv where
  now : Int
  upstream : FetchOutcome
  blob : FetchOutcome
deriving DecidableEq, Repr

/-- The miss path of GET (route.ts lines 196-298): try the upstream
API; on success replace the snapshot, set both timestamps to now,
write through to blob storage, answer with cacheSource api.  On failure
try blob storage; on success replace the snapshot, set lastFetchTime
only, schedule a retry after RETRY_INTERVAL, answer with cacheSource
blob-fallback.  If both fail, serve the stale snapshot when one exists
(cacheSource memory-stale, max-age 60), else answer 500 with both
error messages. -/
def fetchAndFallback (s : CacheState) (env : GetEnv) (sched0 : List Int) : GetResult :=
  let now := env.now
  match fetchFromUpstreamAPI env.upstream with
  | .ok d =>
    let payload : DataPayload :=
      { success := d.success, count := d.count, data := d.data,
        cached := false, stale := false, lastUpdated := now,
        nextUpdate := some (now + CACHE_DURATION), errorNote := none,
        cacheSource := "api", maxAge := 180 }
    let s' : CacheState :=
      { cachedData := some { success := d.success, count := d.count, data := d.data },
        lastFetchTime := now, lastSuccessfulFetchTime := now,
        isRetryingUpstream := s.isRetryingUpstream }
    { response := .ok payload, state := s', scheduledRetries := sched0, blobWrites := [d] }
  | .error apiErr =>
    match fetchFromBlobStorage env.blob with
    | .ok blobData =>
      let payload : DataPayload :=
        { success := blobData.success, count := blobData.count,
          data := blobData.data, cached := false, stale := false, lastUpdated := now,
          nextUpdate := some (now + CACHE_DURATION), errorNote := none,
          cacheSource := "blob-fallback", maxAge := 180 }
      let snap : EmergencyResponse :=
        { success := blobData.success, count := blobData.count, data := blobData.data }
      let s' : CacheState :=
        { cachedData := some snap,
          lastFetchTime := now, lastSuccessfulFetchTime := s.lastSuccessfulFetchTime,
          isRetryingUpstream := s.isRetryingUpstream }
      { response := .ok payload, state := s',
        scheduledRetries := sched0 ++ [RETRY_INTERVAL], blobWrites := [] }
    | .error blobErr =>
      match s.cachedData with
      | some cd =>
        let payload : DataPayload :=
          { success := cd.success, count := cd.count, data := cd.data,
            cached := true, stale := true, lastUpdated := s.lastFetchTime,
            nextUpdate := none,
            errorNote := some ("Using stale cached data due to API and blob storage errors"),
            cacheSource := "memory-stale", maxAge := 60 }
        { response := .ok payload, state := s, scheduledRetries := sched0, blobWrites := [] }
      | none =>
        let e : ErrorPayload :=
          { error := "Failed to load emergency data from API and blob storage",
            apiError := apiErr, blobError := blobErr }
        { response := .failure e, state := s, scheduledRetries := sched0, blobWrites := [] }

/-- The opportunistic background-retry scheduling of route.ts lines
170-175: when a snapshot exists, the last upstream success is older
than RETRY_INTERVAL and no retry is in flight, a retry is scheduled
with delay 1000. -/
def schedOpportunistic (s : CacheState) (env : GetEnv) : List Int :=
  if s.cachedData.isSome ∧ env.now - s.lastSuccessfulFetchTime > RETRY_INTERVAL ∧
      s.isRetryingUpstream = false then [1000] else []

/-- GET, route.ts lines 166-299.  First the opportunistic scheduling
check runs; then the freshness check of line 178: a snapshot younger
than CACHE_DURATION is served from memory with cacheSource memory;
otherwise the miss path fetchAndFallback runs. -/
def GET (s : CacheState) (env : GetEnv) : GetResult :=
  let now := env.now
  let sched0 : List Int := schedOpportunistic s env
  match s.cachedData with
  | some cd =>
    if now - s.lastFetchTime < CACHE_DURATION then
      let payload : DataPayload :=
        { success := cd.success, count := cd.count, data := cd.data,
          cached := true, stale := false, lastUpdated := s.lastFetchTime,
          nextUpdate := some (s.lastFetchTime + CACHE_DURATION), errorNote := none,
          cacheSource := "memory", maxAge := 180 }
      { response := .ok payload, state := s, scheduledRetries := sched0, blobWrites := [] }
    else fetchAndFallback s env sched0
  | none => fetchAndFallback s env sched0

/-- Set the single-flight flag (route.ts line 136). -/
def setRetryFlag (s : CacheState) : CacheState := { s with isRetryingUpstream := true }

/-- Clear the single-flight flag (route.ts lines 156 and 159). -/
def clearRetryFlag (s : CacheState) : CacheState := { s with isRetryingUpstream := false }

/-- The snapshot/timestamp update of a successful upstream fetch
(route.ts lines 143-149): replace the snapshot wholesale and set both
timestamps to now.  The retry flag is untouched here --- in
retryUpstreamAPI it is still set while this update runs. -/
def applyUpstreamSuccess (s : CacheState) (now : Int) (d : EmergencyResponse) : CacheState :=
  { cachedData := some { success := d.success, count := d.count, data := d.data },
    lastFetchTime := now, lastSuccessfulFetchTime := now,
    isRetryingUpstream := s.isRetryingUpstream }

/-- Result of one retryUpstreamAPI invocation: the state left behind,
whether an upstream call was actually launched, the snapshots written
through to blob storage, and the delays of rescheduled retries. -/
structure RetryResult where
  state : CacheState
  upstreamCalled : Bool
  blobWrites : List EmergencyResponse
  scheduledRetries : List Int
deriving DecidableEq, Repr

/-- retryUpstreamAPI, route.ts lines 130-164: no-op when the flag is
already set; otherwise set the flag and attempt the upstream fetch.
On success apply the snapshot/timestamp update, write through to blob
storage, then clear the flag; on failure clear the flag and reschedule
after RETRY_INTERVAL. -/
def retryUpstreamAPI (s : CacheState) (now : Int) (o : FetchOutcome) : RetryResult :=
  if s.isRetryingUpstream then
    { state := s, upstreamCalled := false, blobWrites := [], scheduledRetries := [] }
  else
    let s1 := setRetryFlag s
    match fetchFromUpstreamAPI o with
    | .ok d =>
      { state := clearRetryFlag (applyUpstreamSuccess s1 now d),
        upstreamCalled := true, blobWrites := [d], scheduledRetries := [] }
    | .error _ =>
      { state := clearRetryFlag s1, upstreamCalled := true, blobWrites := [],
        scheduledRetries := [RETRY_INTERVAL] }

/-- A collection satisfies the served-data invariant: count equals the
length of the record list and no record exceeds 3000 people. -/
def validCollection (d : EmergencyResponse) : Prop :=
  d.count = (d.data.length : Int) ∧ ∀ e ∈ d.data, e.numberOfPeople ≤ 3000

/-- The cache-state invariant: whatever snapshot is held satisfies the
served-data invariant. -/
def stateValid (s : CacheState) : Prop :=
  ∀ cd, s.cachedData = some cd → validCollection cd

/-- A relief-action record as consumed by the matcher of
src/utils/geospatial.ts: string-encoded coordinates plus an identity
field standing for the rest of the record. -/
structure ReliefAction where
  DonationID : Int
  LocationLat : String
  LocationLong : String
deriving DecidableEq, Repr

/-- The JavaScript test distance < minDistance of geospatial.ts line
96, where minDistance starts at Infinity: with the running best pair
modelled as an Option, the empty accumulator compares as Infinity, so
every distance beats it. -/
def ltCurrentMin (d : ℚ) : Option (ReliefAction × ℚ) → Prop
  | none => True
  | some p => d < p.2

instance (d : ℚ) : (acc : Option (ReliefAction × ℚ)) → Decidable (ltCurrentMin d acc)
  | none => isTrue trivial
  | some p => inferInstanceAs (Decidable (d < p.2))

/-- The scan loop of findClosestReliefAction (geospatial.ts lines
78-100), with the pair (closestReliefAction, minDistance) carried as
the accumulator.  parseFloat is modelled by the parameter pf, where
pf s = none stands for a parseFloat result that fails the isNaN check
of line 83; calculateHaversineDistance is modelled by the parameter
dist, an arbitrary total function on rational coordinates, since its
trigonometric arithmetic is real-valued and every claim about the
matcher holds for any such distance function. -/
def findClosestAux (pf : String → Option ℚ) (dist : ℚ → ℚ → ℚ → ℚ → ℚ)
    (emergencyLat emergencyLon maxDistance : ℚ) :
    List ReliefAction → Option (ReliefAction × ℚ) → Option (ReliefAction × ℚ)
  | [], acc => acc
  | ra :: rest, acc =>
    match pf ra.LocationLat, pf ra.LocationLong with
    | some reliefLat, some reliefLon =>
      let d := dist emergencyLat emergencyLon reliefLat reliefLon
      if d ≤ maxDistance ∧ ltCurrentMin d acc then
        findClosestAux pf dist emergencyLat emergencyLon maxDistance rest (some (ra, d))
      else
        findClosestAux pf dist emergencyLat emergencyLon maxDistance rest acc
    | _, _ => findClosestAux pf dist emergencyLat emergencyLon maxDistance rest acc

/-- findClosestReliefAction, geospatial.ts lines 67-104: scan the
candidates starting from the empty best pair; the default radius is
1 km as on line 71. -/
def findClosestReliefAction (pf : String → Option ℚ) (dist : ℚ → ℚ → ℚ → ℚ → ℚ)
    (emergencyLat emergencyLon : ℚ) (reliefActions : List ReliefAction)
    (maxDistance : ℚ := 1) : Option (ReliefAction × ℚ) :=
  findClosestAux pf dist emergencyLat emergencyLon maxDistance reliefActions none

/-- A candidate's coordinates parse to the given values and the
distance from the origin evaluates to x. -/
def parsedDist (pf : String → Option ℚ) (dist : ℚ → ℚ → ℚ → ℚ → ℚ)
    (emergencyLat emergencyLon : ℚ) (ra : ReliefAction) (x : ℚ) : Prop :=
  ∃ a b, pf ra.LocationLat = some a ∧ pf ra.LocationLong = some b ∧
    x = dist emergencyLat emergencyLon a b

/-- A candidate fails the coordinate validation of geospatial.ts line
83: at least one of its coordinate strings does not parse. -/
def invalidCoords (pf : String → Option ℚ) (ra : ReliefAction) : Prop :=
  pf ra.LocationLat = none ∨ pf ra.LocationLong = none

lemma parsedDist_iff_of_valid {pf : String → Option ℚ} {dist : ℚ → ℚ → ℚ → ℚ → ℚ}
    {elat elon : ℚ} {ra : ReliefAction} {a b : ℚ}
    (hlat : pf ra.LocationLat = some a) (hlon : pf ra.LocationLong = some b) {x : ℚ} :
    parsedDist pf dist elat elon ra x ↔ x = dist elat elon a b := by
  simp [parsedDist, hlat, hlon]

lemma not_parsedDist_of_invalid {pf : String → Option ℚ} {dist : ℚ → ℚ → ℚ → ℚ → ℚ}
    {elat elon : ℚ} {ra : ReliefAction} (h : invalidCoords pf ra) {x : ℚ} :
    ¬ parsedDist pf dist elat elon ra x := by
  rcases h with h | h <;> simp [parsedDist, h]

lemma findClosestAux_cons_invalid {pf : String → Option ℚ} {dist : ℚ → ℚ → ℚ → ℚ → ℚ}
    {elat elon maxD : ℚ} {ra : ReliefAction} (h : invalidCoords pf ra)
    (rest : List ReliefAction) (acc : Option (ReliefAction × ℚ)) :
    findClosestAux pf dist elat elon maxD (ra :: rest) acc =
      findClosestAux pf dist elat elon maxD rest acc := by
  rcases h with h | h
  · cases hlon : pf ra.LocationLong <;> simp [findClosestAux, h, hlon]
  · cases hlat : pf ra.LocationLat <;> simp [findClosestAux, h, hlat]

lemma findClosestAux_cons_valid_take {pf : String → Option ℚ} {dist : ℚ → ℚ → ℚ → ℚ → ℚ}
    {elat elon maxD : ℚ} {ra : ReliefAction} {a b : ℚ}
    (hlat : pf ra.LocationLat = some a) (hlon : pf ra.LocationLong = some b)
    (rest : List ReliefAction) (acc : Option (ReliefAction × ℚ))
    (hcond : dist elat elon a b ≤ maxD ∧ ltCurrentMin (dist elat elon a b) acc) :
    findClosestAux pf dist elat elon maxD (ra :: rest) acc =
      findClosestAux pf dist elat elon maxD rest (some (ra, dist elat elon a b)) := by
  simp only [findClosestAux, hlat, hlon]
  rw [if_pos hcond]

lemma findClosestAux_cons_valid_skip {pf : String → Option ℚ} {dist : ℚ → ℚ → ℚ → ℚ → ℚ}
    {elat elon maxD : ℚ} {ra : ReliefAction} {a b : ℚ}
    (hlat : pf ra.LocationLat = some a) (hlon : pf ra.LocationLong = some b)
    (rest : List ReliefAction) (acc : Option (ReliefAction × ℚ))
    (hcond : ¬ (dist elat elon a b ≤ maxD ∧ ltCurrentMin (dist elat elon a b) acc)) :
    findClosestAux pf dist elat elon maxD (ra :: rest) acc =
      findClosestAux pf dist elat elon maxD rest acc := by
  simp only [findClosestAux, hlat, hlon]
  rw [if_neg hcond]

lemma findClosestAux_isSome_of_some {pf : String → Option ℚ} {dist : ℚ → ℚ → ℚ → ℚ → ℚ}
    {elat elon maxD : ℚ} :
    ∀ (l : List ReliefAction) (p : ReliefAction × ℚ),
      findClosestAux pf dist elat elon maxD l (some p) ≠ none := by
  intro l
  induction l with
  | nil => intro p h; exact Option.noConfusion h
  | cons ra rest ih =>
    intro p
    cases hlat : pf ra.LocationLat with
    | none => rw [findClosestAux_cons_invalid (Or.inl hlat)]; exact ih p
    | some a =>
      cases hlon : pf ra.LocationLong with
      | none => rw [findClosestAux_cons_invalid (Or.inr hlon)]; exact ih p
      | some b =>
        by_cases hcond : dist elat elon a b ≤ maxD ∧
            ltCurrentMin (dist elat elon a b) (some p)
        · rw [findClosestAux_cons_valid_take hlat hlon rest (some p) hcond]
          exact ih _
        · rw [findClosestAux_cons_valid_skip hlat hlon rest (some p) hcond]
          exact ih p

lemma findClosestAux_eq_none_iff {pf : String → Option ℚ} {dist : ℚ → ℚ → ℚ → ℚ → ℚ}
    {elat elon maxD : ℚ} :
    ∀ (l : List ReliefAction) (acc : Option (ReliefAction × ℚ)),
      findClosestAux pf dist elat elon maxD l acc = none ↔
        acc = none ∧ ∀ ra ∈ l, ∀ x, parsedDist pf dist elat elon ra x → maxD < x := by
  intro l
  induction l with
  | nil => intro acc; simp [findClosestAux]
  | cons ra rest ih =>
    intro acc
    cases hlat : pf ra.LocationLat with
    | none =>
      rw [findClosestAux_cons_invalid (Or.inl hlat), ih]
      simp only [List.forall_mem_cons]
      constructor
      · rintro ⟨h1, h2⟩
        exact ⟨h1, fun x hx => absurd hx (not_parsedDist_of_invalid (Or.inl hlat)), h2⟩
      · rintro ⟨h1, _, h2⟩
        exact ⟨h1, h2⟩
    | some a =>
      cases hlon : pf ra.LocationLong with
      | none =>
        rw [findClosestAux_cons_invalid (Or.inr hlon), ih]
        simp only [List.forall_mem_cons]
        constructor
        · rintro ⟨h1, h2⟩
          exact ⟨h1, fun x hx => absurd hx (not_parsedDist_of_invalid (Or.inr hlon)), h2⟩
        · rintro ⟨h1, _, h2⟩
          exact ⟨h1, h2⟩
      | some b =>
        by_cases hcond : dist elat elon a b ≤ maxD ∧ ltCurrentMin (dist elat elon a b) acc
        · rw [findClosestAux_cons_valid_take hlat hlon rest acc hcond]
          constructor
          · intro h
            exact absurd h (findClosestAux_isSome_of_some rest _)
          · rintro ⟨-, hall⟩
            have hpd : parsedDist pf dist elat elon ra (dist elat elon a b) :=
              ⟨a, b, hlat, hlon, rfl⟩
            exact absurd hcond.1
              (not_le.mpr (hall ra (List.mem_cons_self ra rest) _ hpd))
        · rw [findClosestAux_cons_valid_skip hlat hlon rest acc hcond, ih]
          simp only [List.forall_mem_cons]
          constructor
          · rintro ⟨h1, h2⟩
            refine ⟨h1, fun x hx => ?_, h2⟩
            rw [parsedDist_iff_of_valid hlat hlon] at hx
            subst hx
            subst h1
            rcases not_and_or.mp hcond with h | h
            · exact not_le.mp h
            · exact absurd trivial h
          · rintro ⟨h1, -, h2⟩
            exact ⟨h1, h2⟩

lemma findClosestAux_some_spec {pf : String → Option ℚ} {dist : ℚ → ℚ → ℚ → ℚ → ℚ}
    {elat elon maxD : ℚ} :
    ∀ (l : List ReliefAction) (acc : Option (ReliefAction × ℚ)) (ra : ReliefAction) (d : ℚ),
      findClosestAux pf dist elat elon maxD l acc = some (ra, d) →
      (acc = some (ra, d) ∧
         ∀ ra' ∈ l, ∀ x, parsedDist pf dist elat elon ra' x → x ≤ maxD → d ≤ x) ∨
      (∃ l₁ l₂, l = l₁ ++ ra :: l₂ ∧ parsedDist pf dist elat elon ra d ∧ d ≤ maxD ∧
         ltCurrentMin d acc ∧
         (∀ ra' ∈ l₁, ∀ x, parsedDist pf dist elat elon ra' x → x ≤ maxD → d < x) ∧
         (∀ ra' ∈ l₂, ∀ x, parsedDist pf dist elat elon ra' x → x ≤ maxD → d ≤ x)) := by
  intro l
  induction l with
  | nil =>
    intro acc ra d h
    rw [findClosestAux] at h
    exact Or.inl ⟨h, by simp⟩
  | cons ra0 rest ih =>
    intro acc ra d h
    cases hlat : pf ra0.LocationLat with
    | none =>
      rw [findClosestAux_cons_invalid (Or.inl hlat)] at h
      rcases ih acc ra d h with ⟨hacc, hall⟩ | ⟨l₁, l₂, heq, hpd, hle, hlt, hbef, haft⟩
      · refine Or.inl ⟨hacc, ?_⟩
        rw [List.forall_mem_cons]
        exact ⟨fun x hx => absurd hx (not_parsedDist_of_invalid (Or.inl hlat)), hall⟩
      · refine Or.inr ⟨ra0 :: l₁, l₂, by rw [heq, List.cons_append], hpd, hle, hlt, ?_, haft⟩
        rw [List.forall_mem_cons]
        exact ⟨fun x hx => absurd hx (not_parsedDist_of_invalid (Or.inl hlat)), hbef⟩
    | some a =>
      cases hlon : pf ra0.LocationLong with
      | none =>
        rw [findClosestAux_cons_invalid (Or.inr hlon)] at h
        rcases ih acc ra d h with ⟨hacc, hall⟩ | ⟨l₁, l₂, heq, hpd, hle, hlt, hbef, haft⟩
        · refine Or.inl ⟨hacc, ?_⟩
          rw [List.forall_mem_cons]
          exact ⟨fun x hx => absurd hx (not_parsedDist_of_invalid (Or.inr hlon)), hall⟩
        · refine Or.inr ⟨ra0 :: l₁, l₂, by rw [heq, List.cons_append], hpd, hle, hlt, ?_, haft⟩
          rw [List.forall_mem_cons]
          exact ⟨fun x hx => absurd hx (not_parsedDist_of_invalid (Or.inr hlon)), hbef⟩
      | some b =>
        by_cases hcond : dist elat elon a b ≤ maxD ∧ ltCurrentMin (dist elat elon a b) acc
        · rw [findClosestAux_cons_valid_take hlat hlon rest acc hcond] at h
          rcases ih _ ra d h with ⟨hacc, hall⟩ | ⟨l₁, l₂, heq, hpd, hle, hlt, hbef, haft⟩
          · have hra : ra0 = ra := congrArg (fun p => (Prod.fst <$> p).getD ra0) hacc
            have hd : dist elat elon a b = d := by
              have := congrArg (fun p => (Prod.snd <$> p).getD 0) hacc
              simpa using this
            refine Or.inr ⟨[], rest, by rw [hra, List.nil_append], ?_, ?_, ?_, by simp, hall⟩
            · subst hra; exact ⟨a, b, hlat, hlon, hd.symm⟩
            · rw [← hd]; exact hcond.1
            · rw [← hd]; exact hcond.2
          · have hlt0 : d < dist elat elon a b := hlt
            refine Or.inr ⟨ra0 :: l₁, l₂, by rw [heq, List.cons_append], hpd, hle, ?_, ?_, haft⟩
            · cases acc with
              | none => trivial
              | some p => exact lt_trans hlt0 hcond.2
            · rw [List.forall_mem_cons]
              refine ⟨fun x hx hxle => ?_, hbef⟩
              rw [parsedDist_iff_of_valid hlat hlon] at hx
              subst hx
              exact hlt0
        · rw [findClosestAux_cons_valid_skip hlat hlon rest acc hcond] at h
          rcases ih acc ra d h with ⟨hacc, hall⟩ | ⟨l₁, l₂, heq, hpd, hle, hlt, hbef, haft⟩
          · refine Or.inl ⟨hacc, ?_⟩
            rw [List.forall_mem_cons]
            refine ⟨fun x hx hxle => ?_, hall⟩
            rw [parsedDist_iff_of_valid hlat hlon] at hx
            subst hx
            rcases not_and_or.mp hcond with hbad | hbad
            · exact absurd hxle hbad
            · rw [hacc] at hbad
              exact le_of_not_lt hbad
          · refine Or.inr ⟨ra0 :: l₁, l₂, by rw [heq, List.cons_append], hpd, hle, hlt, ?_, haft⟩
            rw [List.forall_mem_cons]
            refine ⟨fun x hx hxle => ?_, hbef⟩
            rw [parsedDist_iff_of_valid hlat hlon] at hx
            subst hx
            rcases not_and_or.mp hcond with hbad | hbad
            · exact absurd hxle hbad
            · cases hacc : acc with
              | none => rw [hacc] at hbad; exact absurd trivial hbad
              | some p =>
                rw [hacc] at hbad hlt
                exact lt_of_lt_of_le hlt (le_of_not_lt hbad)

lemma filterValidEmergencies_valid (d : EmergencyResponse) :
    validCollection (filterValidEmergencies d) := by
  constructor
  · rfl
  · intro e he
    simp only [filterValidEmergencies, List.mem_filter, decide_eq_true_eq] at he
    exact he.2

lemma fetchFromUpstreamAPI_ok_iff {o : FetchOutcome} {d : EmergencyResponse} :
    fetchFromUpstreamAPI o = .ok d ↔
      ∃ raw l, o = .respond raw ∧ raw.dataField = some l ∧ raw.success = true ∧
        d = filterValidEmergencies ⟨raw.success, raw.count, l⟩ := by
  cases o with
  | fail m => simp [fetchFromUpstreamAPI]
  | respond raw =>
    cases hf : raw.dataField with
    | none => simp [fetchFromUpstreamAPI, hf]
    | some l =>
      by_cases hs : raw.success = true
      · simp only [fetchFromUpstreamAPI, hf, hs, if_true]
        constructor
        · intro h
          injection h with h
          refine ⟨raw, l, rfl, hf, hs, ?_⟩
          rw [← h, hs]
        · rintro ⟨raw2, l2, heq, hf2, hs2, rfl⟩
          injection heq with heq
          subst heq
          rw [hf] at hf2
          injection hf2 with hf2
          subst hf2
          rw [hs]
      · simp only [Bool.not_eq_true] at hs
        simp [fetchFromUpstreamAPI, hf, hs]

lemma fetchFromBlobStorage_ok_iff {o : FetchOutcome} {d : EmergencyResponse} :
    fetchFromBlobStorage o = .ok d ↔
      ∃ raw l, o = .respond raw ∧ raw.dataField = some l ∧ raw.success = true ∧
        d = filterValidEmergencies ⟨raw.success, raw.count, l⟩ := by
  cases o with
  | fail m => simp [fetchFromBlobStorage]
  | respond raw =>
    cases hf : raw.dataField with
    | none => simp [fetchFromBlobStorage, hf]
    | some l =>
      by_cases hs : raw.success = true
      · simp only [fetchFromBlobStorage, hf, hs, if_true]
        constructor
        · intro h
          injection h with h
          refine ⟨raw, l, rfl, hf, hs, ?_⟩
          rw [← h, hs]
        · rintro ⟨raw2, l2, heq, hf2, hs2, rfl⟩
          injection heq with heq
          subst heq
          rw [hf] at hf2
          injection hf2 with hf2
          subst hf2
          rw [hs]
      · simp only [Bool.not_eq_true] at hs
        simp [fetchFromBlobStorage, hf, hs]

lemma fetchFromUpstreamAPI_ok_valid {o : FetchOutcome} {d : EmergencyResponse}
    (h : fetchFromUpstreamAPI o = .ok d) : validCollection d := by
  rcases fetchFromUpstreamAPI_ok_iff.mp h with ⟨raw, l, -, -, -, rfl⟩
  exact filterValidEmergencies_valid _

lemma fetchFromBlobStorage_ok_valid {o : FetchOutcome} {d : EmergencyResponse}
    (h : fetchFromBlobStorage o = .ok d) : validCollection d := by
  rcases fetchFromBlobStorage_ok_iff.mp h with ⟨raw, l, -, -, -, rfl⟩
  exact filterValidEmergencies_valid _

lemma fetchFromBlobStorage_error_msg {o : FetchOutcome} {m : String}
    (h : fetchFromBlobStorage o = .error m) :
    m = "Failed to load emergency data from blob storage" := by
  cases o with
  | fail m0 => simp [fetchFromBlobStorage] at h; exact h.symm
  | respond raw =>
    cases hf : raw.dataField with
    | none => simp [fetchFromBlobStorage, hf] at h; exact h.symm
    | some l =>
      by_cases hs : raw.success = true
      · simp [fetchFromBlobStorage, hf, hs] at h
      · simp only [Bool.not_eq_true] at hs
        simp [fetchFromBlobStorage, hf, hs] at h
        exact h.symm

lemma GET_memory {s : CacheState} {env : GetEnv} {cd : EmergencyResponse}
    (hc : s.cachedData = some cd)
    (hf : env.now - s.lastFetchTime < CACHE_DURATION) :
    GET s env =
      { response := .ok ⟨cd.success, cd.count, cd.data, true, false, s.lastFetchTime,
          some (s.lastFetchTime + CACHE_DURATION), none, "memory", 180⟩,
        state := s, scheduledRetries := schedOpportunistic s env, blobWrites := [] } := by
  unfold GET
  rw [hc]
  simp [hf]

lemma GET_expired {s : CacheState} {env : GetEnv} {cd : EmergencyResponse}
    (hc : s.cachedData = some cd)
    (hf : ¬ (env.now - s.lastFetchTime < CACHE_DURATION)) :
    GET s env = fetchAndFallback s env (schedOpportunistic s env) := by
  unfold GET
  rw [hc]
  simp [hf]

lemma GET_cold {s : CacheState} {env : GetEnv} (hc : s.cachedData = none) :
    GET s env = fetchAndFallback s env (schedOpportunistic s env) := by
  unfold GET
  rw [hc]

lemma fetchAndFallback_upstream_ok {s : CacheState} {env : GetEnv} {sched0 : List Int}
    {d : EmergencyResponse} (h : fetchFromUpstreamAPI env.upstream = .ok d) :
    fetchAndFallback s env sched0 =
      { response := .ok ⟨d.success, d.count, d.data, false, false, env.now,
          some (env.now + CACHE_DURATION), none, "api", 180⟩,
        state := ⟨some ⟨d.success, d.count, d.data⟩, env.now, env.now, s.isRetryingUpstream⟩,
        scheduledRetries := sched0, blobWrites := [d] } := by
  unfold fetchAndFallback
  rw [h]

lemma fetchAndFallback_blob_ok {s : CacheState} {env : GetEnv} {sched0 : List Int}
    {m : String} {bd : EmergencyResponse}
    (hu : fetchFromUpstreamAPI env.upstream = .error m)
    (hb : fetchFromBlobStorage env.blob = .ok bd) :
    fetchAndFallback s env sched0 =
      { response := .ok ⟨bd.success, bd.count, bd.data, false, false, env.now,
          some (env.now + CACHE_DURATION), none, "blob-fallback", 180⟩,
        state := ⟨some ⟨bd.success, bd.count, bd.data⟩, env.now,
          s.lastSuccessfulFetchTime, s.isRetryingUpstream⟩,
        scheduledRetries := sched0 ++ [RETRY_INTERVAL], blobWrites := [] } := by
  unfold fetchAndFallback
  rw [hu, hb]

lemma fetchAndFallback_stale {s : CacheState} {env : GetEnv} {sched0 : List Int}
    {m m2 : String} {cd : EmergencyResponse}
    (hu : fetchFromUpstreamAPI env.upstream = .error m)
    (hb : fetchFromBlobStorage env.blob = .error m2)
    (hc : s.cachedData = some cd) :
    fetchAndFallback s env sched0 =
      { response := .ok ⟨cd.success, cd.count, cd.data, true, true, s.lastFetchTime,
          none, some ("Using stale cached data due to API and blob storage errors"),
          "memory-stale", 60⟩,
        state := s, scheduledRetries := sched0, blobWrites := [] } := by
  unfold fetchAndFallback
  rw [hu, hb, hc]

lemma fetchAndFallback_all_fail {s : CacheState} {env : GetEnv} {sched0 : List Int}
    {m m2 : String}
    (hu : fetchFromUpstreamAPI env.upstream = .error m)
    (hb : fetchFromBlobStorage env.blob = .error m2)
    (hc : s.cachedData = none) :
    fetchAndFallback s env sched0 =
      { response := .failure ⟨"Failed to load emergency data from API and blob storage",
          m, m2⟩,
        state := s, scheduledRetries := sched0, blobWrites := [] } := by
  unfold fetchAndFallback
  rw [hu, hb, hc]

/-- C10: the data-quality filter is idempotent and order-preserving:
applying filterValidEmergencies twice equals applying it once, and the
retained records form a sublist of the input's records, hence appear in
the same relative order. -/
theorem filterValidEmergencies_idempotent_orderPreserving :
    ∀ d : EmergencyResponse,
      filterValidEmergencies (filterValidEmergencies d) = filterValidEmergencies d ∧
      List.Sublist (filterValidEmergencies d).data d.data := by
  intro d
  constructor
  · show filterValidEmergencies ⟨d.success, _, _⟩ = _
    unfold filterValidEmergencies
    simp [List.filter_filter]
  · exact List.filter_sublist d.data

/-- C1: the data-quality filter yields a collection whose count equals
the length of its data array and in which every record with
numberOfPeople above 3000 is absent; the filter is applied on every
successful upstream fetch and on every successful durable-store read
(their results are filterValidEmergencies images), and GET preserves
the invariant: from a valid cache state, the state GET leaves behind is
valid and every data-bearing response it serves satisfies
count = length(data) with no record above 3000 people. -/
theorem filterValidEmergencies_applied_everywhere :
    (∀ d, validCollection (filterValidEmergencies d)) ∧
    (∀ o d, fetchFromUpstreamAPI o = .ok d →
       (∃ r, d = filterValidEmergencies r) ∧ validCollection d) ∧
    (∀ o d, fetchFromBlobStorage o = .ok d →
       (∃ r, d = filterValidEmergencies r) ∧ validCollection d) ∧
    (∀ s env, stateValid s →
       stateValid (GET s env).state ∧
       ∀ p, (GET s env).response = .ok p →
         p.count = (p.data.length : Int) ∧ ∀ e ∈ p.data, e.numberOfPeople ≤ 3000) := by
  refine ⟨filterValidEmergencies_valid, ?_, ?_, ?_⟩
  · intro o d h
    rcases fetchFromUpstreamAPI_ok_iff.mp h with ⟨raw, l, -, -, -, rfl⟩
    exact ⟨⟨_, rfl⟩, filterValidEmergencies_valid _⟩
  · intro o d h
    rcases fetchFromBlobStorage_ok_iff.mp h with ⟨raw, l, -, -, -, rfl⟩
    exact ⟨⟨_, rfl⟩, filterValidEmergencies_valid _⟩
  · intro s env hs
    have hmiss : ∀ sched0, stateValid (fetchAndFallback s env sched0).state ∧
        ∀ p, (fetchAndFallback s env sched0).response = .ok p →
          p.count = (p.data.length : Int) ∧ ∀ e ∈ p.data, e.numberOfPeople ≤ 3000 := by
      intro sched0
      cases hu : fetchFromUpstreamAPI env.upstream with
      | ok d =>
        rw [fetchAndFallback_upstream_ok hu]
        have hv := fetchFromUpstreamAPI_ok_valid hu
        refine ⟨?_, ?_⟩
        · intro cd2 hcd2
          simp only at hcd2
          injection hcd2 with hcd2
          rw [← hcd2]
          exact hv
        · intro p hp
          simp only at hp
          injection hp with hp
          rw [← hp]
          exact ⟨hv.1, hv.2⟩
      | error m =>
        cases hb : fetchFromBlobStorage env.blob with
        | ok bd =>
          rw [fetchAndFallback_blob_ok hu hb]
          have hv := fetchFromBlobStorage_ok_valid hb
          refine ⟨?_, ?_⟩
          · intro cd2 hcd2
            simp only at hcd2
            injection hcd2 with hcd2
            rw [← hcd2]
            exact hv
          · intro p hp
            simp only at hp
            injection hp with hp
            rw [← hp]
            exact ⟨hv.1, hv.2⟩
        | error m2 =>
          cases hc : s.cachedData with
          | some cd =>
            rw [fetchAndFallback_stale hu hb hc]
            have hv := hs cd hc
            refine ⟨hs, ?_⟩
            intro p hp
            simp only at hp
            injection hp with hp
            rw [← hp]
            exact ⟨hv.1, hv.2⟩
          | none =>
            rw [fetchAndFallback_all_fail hu hb hc]
            refine ⟨hs, ?_⟩
            intro p hp
            simp only at hp
            exact GetResponse.noConfusion hp
    cases hc : s.cachedData with
    | some cd =>
      by_cases hf : env.now - s.lastFetchTime < CACHE_DURATION
      · rw [GET_memory hc hf]
        have hv := hs cd hc
        refine ⟨hs, ?_⟩
        intro p hp
        simp only at hp
        injection hp with hp
        rw [← hp]
        exact ⟨hv.1, hv.2⟩
      · rw [GET_expired hc hf]
        exact hmiss _
    | none =>
      rw [GET_cold hc]
      exact hmiss _

/-- C1 witness: a concrete cold state with a raw upstream body holding
a 5000-person record; the hypothesis stateValid holds and the invariant
conclusion is obtained by applying the theorem there. -/
theorem filterValidEmergencies_applied_everywhere_witness :
    stateValid ⟨none, 0, 0, false⟩ ∧
    stateValid (GET ⟨none, 0, 0, false⟩
      ⟨0, .respond ⟨true, 2, some [⟨"a", 5000⟩, ⟨"b", 3⟩]⟩, .fail ("x")⟩).state :=
  have hs : stateValid ⟨none, 0, 0, false⟩ := fun _ hcd => Option.noConfusion hcd
  ⟨hs, (filterValidEmergencies_applied_everywhere.2.2.2
    ⟨none, 0, 0, false⟩
    ⟨0, .respond ⟨true, 2, some [⟨"a", 5000⟩, ⟨"b", 3⟩]⟩, .fail ("x")⟩ hs).1⟩

lemma GET_shape (s : CacheState) (env : GetEnv) :
    (∃ cd, s.cachedData = some cd ∧ env.now - s.lastFetchTime < CACHE_DURATION ∧
       GET s env = ⟨.ok ⟨cd.success, cd.count, cd.data, true, false, s.lastFetchTime,
         some (s.lastFetchTime + CACHE_DURATION), none, "memory", 180⟩,
         s, schedOpportunistic s env, []⟩) ∨
    (∃ d, fetchFromUpstreamAPI env.upstream = .ok d ∧
       (s.cachedData = none ∨ ¬ (env.now - s.lastFetchTime < CACHE_DURATION)) ∧
       GET s env = ⟨.ok ⟨d.success, d.count, d.data, false, false, env.now,
         some (env.now + CACHE_DURATION), none, "api", 180⟩,
         ⟨some ⟨d.success, d.count, d.data⟩, env.now, env.now, s.isRetryingUpstream⟩,
         schedOpportunistic s env, [d]⟩) ∨
    (∃ m bd, fetchFromUpstreamAPI env.upstream = .error m ∧
       fetchFromBlobStorage env.blob = .ok bd ∧
       (s.cachedData = none ∨ ¬ (env.now - s.lastFetchTime < CACHE_DURATION)) ∧
       GET s env = ⟨.ok ⟨bd.success, bd.count, bd.data, false, false, env.now,
         some (env.now + CACHE_DURATION), none, "blob-fallback", 180⟩,
         ⟨some ⟨bd.success, bd.count, bd.data⟩, env.now, s.lastSuccessfulFetchTime,
           s.isRetryingUpstream⟩,
         schedOpportunistic s env ++ [RETRY_INTERVAL], []⟩) ∨
    (∃ m m2 cd, fetchFromUpstreamAPI env.upstream = .error m ∧
       fetchFromBlobStorage env.blob = .error m2 ∧
       s.cachedData = some cd ∧ ¬ (env.now - s.lastFetchTime < CACHE_DURATION) ∧
       GET s env = ⟨.ok ⟨cd.success, cd.count, cd.data, true, true, s.lastFetchTime,
         none, some ("Using stale cached data due to API and blob storage errors"),
         "memory-stale", 60⟩,
         s, schedOpportunistic s env, []⟩) ∨
    (∃ m m2, fetchFromUpstreamAPI env.upstream = .error m ∧
       fetchFromBlobStorage env.blob = .error m2 ∧
       s.cachedData = none ∧
       GET s env = ⟨.failure ⟨"Failed to load emergency data from API and blob storage",
         m, m2⟩, s, schedOpportunistic s env, []⟩) := by
  have hmiss : ∀ hobs : s.cachedData = none ∨ ¬ (env.now - s.lastFetchTime < CACHE_DURATION),
      GET s env = fetchAndFallback s env (schedOpportunistic s env) := by
    rintro (hc | hf)
    · exact GET_cold hc
    · cases hc : s.cachedData with
      | some cd => exact GET_expired hc hf
      | none => exact GET_cold hc
  cases hc : s.cachedData with
  | some cd =>
    by_cases hf : env.now - s.lastFetchTime < CACHE_DURATION
    · exact Or.inl ⟨cd, rfl, hf, GET_memory hc hf⟩
    · have hg := hmiss (Or.inr hf)
      cases hu : fetchFromUpstreamAPI env.upstream with
      | ok d =>
        refine Or.inr (Or.inl ⟨d, rfl, Or.inr hf, ?_⟩)
        rw [hg, fetchAndFallback_upstream_ok hu]
      | error m =>
        cases hb : fetchFromBlobStorage env.blob with
        | ok bd =>
          refine Or.inr (Or.inr (Or.inl ⟨m, bd, rfl, rfl, Or.inr hf, ?_⟩))
          rw [hg, fetchAndFallback_blob_ok hu hb]
        | error m2 =>
          refine Or.inr (Or.inr (Or.inr (Or.inl ⟨m, m2, cd, rfl, rfl, rfl, hf, ?_⟩)))
          rw [hg, fetchAndFallback_stale hu hb hc]
  | none =>
    have hg : GET s env = fetchAndFallback s env (schedOpportunistic s env) := GET_cold hc
    cases hu : fetchFromUpstreamAPI env.upstream with
    | ok d =>
      refine Or.inr (Or.inl ⟨d, rfl, Or.inl rfl, ?_⟩)
      rw [hg, fetchAndFallback_upstream_ok hu]
    | error m =>
      cases hb : fetchFromBlobStorage env.blob with
      | ok bd =>
        refine Or.inr (Or.inr (Or.inl ⟨m, bd, rfl, rfl, Or.inl rfl, ?_⟩))
        rw [hg, fetchAndFallback_blob_ok hu hb]
      | error m2 =>
        refine Or.inr (Or.inr (Or.inr (Or.inr ⟨m, m2, rfl, rfl, rfl, ?_⟩)))
        rw [hg, fetchAndFallback_all_fail hu hb hc]

/-- C3: GET answers with the error envelope exactly when the in-memory
snapshot is empty and both the upstream fetch and the durable-store
read fail, and that envelope carries both underlying error messages;
by the dichotomy of GetResponse every other invocation answers with
data. -/
theorem GET_error_only_when_all_sources_fail :
    ∀ s env,
      ((∃ e, (GET s env).response = .failure e) ↔
        (s.cachedData = none ∧
          (∃ m, fetchFromUpstreamAPI env.upstream = .error m) ∧
          (∃ m, fetchFromBlobStorage env.blob = .error m))) ∧
      (∀ e, (GET s env).response = .failure e →
        fetchFromUpstreamAPI env.upstream = .error e.apiError ∧
        fetchFromBlobStorage env.blob = .error e.blobError ∧
        e.error = "Failed to load emergency data from API and blob storage") := by
  intro s env
  rcases GET_shape s env with
      ⟨cd, hc, hf, hg⟩ | ⟨d, hu, hobs, hg⟩ | ⟨m, bd, hu, hb, hobs, hg⟩ |
      ⟨m, m2, cd, hu, hb, hc, hf, hg⟩ | ⟨m, m2, hu, hb, hc, hg⟩
  · rw [hg]
    refine ⟨⟨?_, ?_⟩, ?_⟩
    · rintro ⟨e, he⟩
      exact GetResponse.noConfusion he
    · rintro ⟨hnone, -, -⟩
      rw [hc] at hnone
      exact Option.noConfusion hnone
    · intro e he
      exact GetResponse.noConfusion he
  · rw [hg]
    refine ⟨⟨?_, ?_⟩, ?_⟩
    · rintro ⟨e, he⟩
      exact GetResponse.noConfusion he
    · rintro ⟨-, ⟨m', hm'⟩, -⟩
      rw [hu] at hm'
      exact Except.noConfusion hm'
    · intro e he
      exact GetResponse.noConfusion he
  · rw [hg]
    refine ⟨⟨?_, ?_⟩, ?_⟩
    · rintro ⟨e, he⟩
      exact GetResponse.noConfusion he
    · rintro ⟨-, -, ⟨m', hm'⟩⟩
      rw [hb] at hm'
      exact Except.noConfusion hm'
    · intro e he
      exact GetResponse.noConfusion he
  · rw [hg]
    refine ⟨⟨?_, ?_⟩, ?_⟩
    · rintro ⟨e, he⟩
      exact GetResponse.noConfusion he
    · rintro ⟨hnone, -, -⟩
      rw [hc] at hnone
      exact Option.noConfusion hnone
    · intro e he
      exact GetResponse.noConfusion he
  · rw [hg]
    refine ⟨⟨?_, ?_⟩, ?_⟩
    · intro _
      exact ⟨hc, ⟨m, hu⟩, ⟨m2, hb⟩⟩
    · intro _
      exact ⟨_, rfl⟩
    · intro e he
      injection he with he
      rw [← he]
      exact ⟨hu, hb, rfl⟩

/-- C3 witness: a cold state with both sources failing; the error
envelope carries the upstream message and the fixed blob message. -/
theorem GET_error_only_when_all_sources_fail_witness :
    (GET ⟨none, 0, 0, false⟩ ⟨0, .fail ("api down"), .fail ("no blob")⟩).response =
      .failure ⟨"Failed to load emergency data from API and blob storage",
        "api down", "Failed to load emergency data from blob storage"⟩ ∧
    fetchFromUpstreamAPI (FetchOutcome.fail ("api down")) = .error "api down" :=
  ⟨by decide,
   ((GET_error_only_when_all_sources_fail ⟨none, 0, 0, false⟩
      ⟨0, .fail ("api down"), .fail ("no blob")⟩).2
      ⟨"Failed to load emergency data from API and blob storage",
        "api down", "Failed to load emergency data from blob storage"⟩ (by decide)).1⟩

/-- C4: on a miss with upstream failing and the durable read
succeeding, GET installs the durable data as the snapshot, sets
lastFetchTime to now, leaves lastSuccessfulFetchTime unchanged, and
answers with the durable data, cacheSource blob-fallback (named
durable-fallback in the design description) and stale false (the route
omits the stale field on this path, which reads as false). -/
theorem GET_durable_fallback_frame :
    ∀ s env m bd,
      fetchFromUpstreamAPI env.upstream = .error m →
      fetchFromBlobStorage env.blob = .ok bd →
      (s.cachedData = none ∨ ¬ (env.now - s.lastFetchTime < CACHE_DURATION)) →
      (GET s env).state.cachedData = some ⟨bd.success, bd.count, bd.data⟩ ∧
      (GET s env).state.lastFetchTime = env.now ∧
      (GET s env).state.lastSuccessfulFetchTime = s.lastSuccessfulFetchTime ∧
      (GET s env).response = .ok ⟨bd.success, bd.count, bd.data, false, false, env.now,
        some (env.now + CACHE_DURATION), none, "blob-fallback", 180⟩ := by
  intro s env m bd hu hb hobs
  have hg : GET s env = fetchAndFallback s env (schedOpportunistic s env) := by
    rcases hobs with hc | hf
    · exact GET_cold hc
    · cases hc : s.cachedData with
      | some cd => exact GET_expired hc hf
      | none => exact GET_cold hc
  rw [hg, fetchAndFallback_blob_ok hu hb]
  exact ⟨rfl, rfl, rfl, rfl⟩

/-- C4 witness: a cold state with lastSuccessfulFetchTime 5; after the
durable fallback it is still 5 while lastFetchTime became 100. -/
theorem GET_durable_fallback_frame_witness :
    fetchFromUpstreamAPI (FetchOutcome.fail ("down")) = .error "down" ∧
    (GET ⟨none, 0, 5, false⟩
        ⟨100, .fail ("down"), .respond ⟨true, 7, some [⟨"e", 2⟩]⟩⟩).state.lastFetchTime
      = 100 ∧
    (GET ⟨none, 0, 5, false⟩
        ⟨100, .fail ("down"), .respond ⟨true, 7, some [⟨"e", 2⟩]⟩⟩).state.lastSuccessfulFetchTime
      = 5 :=
  ⟨rfl,
   (GET_durable_fallback_frame ⟨none, 0, 5, false⟩
      ⟨100, .fail ("down"), .respond ⟨true, 7, some [⟨"e", 2⟩]⟩⟩ "down"
      ⟨true, 1, [⟨"e", 2⟩]⟩ rfl rfl (Or.inl rfl)).2.1,
   (GET_durable_fallback_frame ⟨none, 0, 5, false⟩
      ⟨100, .fail ("down"), .respond ⟨true, 7, some [⟨"e", 2⟩]⟩⟩ "down"
      ⟨true, 1, [⟨"e", 2⟩]⟩ rfl rfl (Or.inl rfl)).2.2.1⟩

/-- C5: every data-bearing boundary response carries a cacheSource tag
drawn from exactly four values: memory, api, blob-fallback and
memory-stale (the design description names the last three upstream,
durable-fallback and stale-memory). -/
theorem GET_cacheSource_enum :
    ∀ s env p, (GET s env).response = .ok p →
      p.cacheSource = "memory" ∨ p.cacheSource = "api" ∨
      p.cacheSource = "blob-fallback" ∨ p.cacheSource = "memory-stale" := by
  intro s env p hp
  rcases GET_shape s env with
      ⟨cd, hc, hf, hg⟩ | ⟨d, hu, hobs, hg⟩ | ⟨m, bd, hu, hb, hobs, hg⟩ |
      ⟨m, m2, cd, hu, hb, hc, hf, hg⟩ | ⟨m, m2, hu, hb, hc, hg⟩
  · rw [hg] at hp
    injection hp with hp
    rw [← hp]
    exact Or.inl rfl
  · rw [hg] at hp
    injection hp with hp
    rw [← hp]
    exact Or.inr (Or.inl rfl)
  · rw [hg] at hp
    injection hp with hp
    rw [← hp]
    exact Or.inr (Or.inr (Or.inl rfl))
  · rw [hg] at hp
    injection hp with hp
    rw [← hp]
    exact Or.inr (Or.inr (Or.inr rfl))
  · rw [hg] at hp
    exact GetResponse.noConfusion hp

/-- C5 witness: the memory path at a concrete warm state carries the
tag memory. -/
theorem GET_cacheSource_enum_witness :
    (GET ⟨some ⟨true, 0, []⟩, 0, 0, false⟩ ⟨1, .fail ("x"), .fail ("y")⟩).response =
      .ok ⟨true, 0, [], true, false, 0, some CACHE_DURATION, none, "memory", 180⟩ ∧
    ("memory" = "memory" ∨ "memory" = "api" ∨ "memory" = "blob-fallback" ∨
      "memory" = "memory-stale") :=
  ⟨by decide,
   GET_cacheSource_enum ⟨some ⟨true, 0, []⟩, 0, 0, false⟩ ⟨1, .fail ("x"), .fail ("y")⟩
     ⟨true, 0, [], true, false, 0, some CACHE_DURATION, none, "memory", 180⟩ (by decide)⟩

/-- C6 (amended): a data-bearing boundary response has cached = true
exactly when it is served from the in-memory snapshot, i.e. when its
cacheSource is memory or memory-stale; the fresh-upstream path and the
durable-fallback path both set cached = false. -/
theorem GET_cached_iff_served_from_memory :
    ∀ s env p, (GET s env).response = .ok p →
      (p.cached = true ↔ (p.cacheSource = "memory" ∨ p.cacheSource = "memory-stale")) := by
  intro s env p hp
  rcases GET_shape s env with
      ⟨cd, hc, hf, hg⟩ | ⟨d, hu, hobs, hg⟩ | ⟨m, bd, hu, hb, hobs, hg⟩ |
      ⟨m, m2, cd, hu, hb, hc, hf, hg⟩ | ⟨m, m2, hu, hb, hc, hg⟩
  · rw [hg] at hp
    injection hp with hp
    rw [← hp]
    simp
  · rw [hg] at hp
    injection hp with hp
    rw [← hp]
    simp
  · rw [hg] at hp
    injection hp with hp
    rw [← hp]
    simp
  · rw [hg] at hp
    injection hp with hp
    rw [← hp]
    simp
  · rw [hg] at hp
    exact GetResponse.noConfusion hp

/-- C6 witness: the durable-fallback path at a concrete input yields
cached = false, and indeed its tag is neither memory nor memory-stale. -/
theorem GET_cached_iff_served_from_memory_witness :
    (GET ⟨none, 0, 0, false⟩
        ⟨0, .fail ("down"), .respond ⟨true, 1, some [⟨"e1", 10⟩]⟩⟩).response =
      .ok ⟨true, 1, [⟨"e1", 10⟩], false, false, 0, some CACHE_DURATION, none,
        "blob-fallback", 180⟩ ∧
    (false = true ↔ ("blob-fallback" = "memory" ∨ "blob-fallback" = "memory-stale")) :=
  ⟨by decide,
   GET_cached_iff_served_from_memory ⟨none, 0, 0, false⟩
     ⟨0, .fail ("down"), .respond ⟨true, 1, some [⟨"e1", 10⟩]⟩⟩
     ⟨true, 1, [⟨"e1", 10⟩], false, false, 0, some CACHE_DURATION, none,
       "blob-fallback", 180⟩ (by decide)⟩

/-- C6 counterexample: the claim that every durable-fallback response
has cached = true fails --- on a cold start with the upstream down and
the blob available, the route answers cacheSource blob-fallback with
cached = false (route.ts line 251). -/
theorem GET_durable_fallback_cached_cex :
    ¬ (∀ s env p, (GET s env).response = .ok p →
        p.cacheSource = "blob-fallback" → p.cached = true) := by
  intro h
  have hfalse := h ⟨none, 0, 0, false⟩
    ⟨0, .fail ("down"), .respond ⟨true, 1, some [⟨"e1", 10⟩]⟩⟩
    ⟨true, 1, [⟨"e1", 10⟩], false, false, 0, some CACHE_DURATION, none,
      "blob-fallback", 180⟩ (by decide) rfl
  exact absurd hfalse (by decide)

/-- C9 (amended): a data-bearing boundary response carries a
Cache-Control max-age of 180 seconds, except the memory-stale path
which carries 60 seconds; neither equals the 300-second freshness
window CACHE_DURATION, and the 500 error path carries no max-age at
all. -/
theorem GET_maxAge_values :
    ∀ s env p, (GET s env).response = .ok p →
      p.maxAge = (if p.cacheSource = "memory-stale" then 60 else 180) ∧
      p.maxAge * 1000 ≠ CACHE_DURATION := by
  intro s env p hp
  rcases GET_shape s env with
      ⟨cd, hc, hf, hg⟩ | ⟨d, hu, hobs, hg⟩ | ⟨m, bd, hu, hb, hobs, hg⟩ |
      ⟨m, m2, cd, hu, hb, hc, hf, hg⟩ | ⟨m, m2, hu, hb, hc, hg⟩
  · rw [hg] at hp
    injection hp with hp
    rw [← hp]
    exact ⟨by simp, by norm_num [CACHE_DURATION]⟩
  · rw [hg] at hp
    injection hp with hp
    rw [← hp]
    exact ⟨by simp, by norm_num [CACHE_DURATION]⟩
  · rw [hg] at hp
    injection hp with hp
    rw [← hp]
    exact ⟨by simp, by norm_num [CACHE_DURATION]⟩
  · rw [hg] at hp
    injection hp with hp
    rw [← hp]
    exact ⟨by simp, by norm_num [CACHE_DURATION]⟩
  · rw [hg] at hp
    exact GetResponse.noConfusion hp

/-- C9 witness: the memory path at a concrete warm state carries
max-age 180, and 180000 differs from the 300000 ms freshness window. -/
theorem GET_maxAge_values_witness :
    (GET ⟨some ⟨true, 0, []⟩, 0, 0, false⟩ ⟨1, .fail ("x"), .fail ("y")⟩).response =
      .ok ⟨true, 0, [], true, false, 0, some CACHE_DURATION, none, "memory", 180⟩ ∧
    (180 : Int) * 1000 ≠ CACHE_DURATION :=
  ⟨by decide,
   (GET_maxAge_values ⟨some ⟨true, 0, []⟩, 0, 0, false⟩ ⟨1, .fail ("x"), .fail ("y")⟩
     ⟨true, 0, [], true, false, 0, some CACHE_DURATION, none, "memory", 180⟩
     (by decide)).2⟩

/-- C9 counterexample: the claim that every response's max-age equals
the 5-minute freshness window fails --- the memory path at a concrete
warm state sets max-age 180 s while CACHE_DURATION is 300000 ms. -/
theorem GET_maxAge_cex :
    ¬ (∀ s env p, (GET s env).response = .ok p → p.maxAge * 1000 = CACHE_DURATION) := by
  intro h
  have hbad := h ⟨some ⟨true, 0, []⟩, 0, 0, false⟩ ⟨1, .fail ("x"), .fail ("y")⟩
    ⟨true, 0, [], true, false, 0, some CACHE_DURATION, none, "memory", 180⟩ (by decide)
  exact absurd hbad (by decide)

/-- C7: the background retry is single-flight.  With the flag set a
trigger is a no-op making no upstream call; from a clear flag the first
trigger launches exactly one call, and any overlapping trigger arriving
while that call is in flight (state setRetryFlag s) launches none and
changes nothing, so two overlapping triggers make exactly one call.
On failure the flag ends cleared, the rest of the state is untouched
and one retry is rescheduled after RETRY_INTERVAL; on success the
snapshot and both timestamps are updated while the flag is still set
(applyUpstreamSuccess keeps it true) and only then is the flag
cleared. -/
theorem retryUpstreamAPI_single_flight :
    (∀ s now o, s.isRetryingUpstream = true →
       retryUpstreamAPI s now o =
         ⟨s, false, [], []⟩) ∧
    (∀ s, s.isRetryingUpstream = false →
       (setRetryFlag s).isRetryingUpstream = true ∧
       (∀ now o, (retryUpstreamAPI s now o).upstreamCalled = true) ∧
       (∀ now2 o2, retryUpstreamAPI (setRetryFlag s) now2 o2 =
         ⟨setRetryFlag s, false, [], []⟩)) ∧
    (∀ s now o m, s.isRetryingUpstream = false →
       fetchFromUpstreamAPI o = .error m →
       retryUpstreamAPI s now o =
         ⟨⟨s.cachedData, s.lastFetchTime, s.lastSuccessfulFetchTime, false⟩,
           true, [], [RETRY_INTERVAL]⟩) ∧
    (∀ s now o d, s.isRetryingUpstream = false →
       fetchFromUpstreamAPI o = .ok d →
       retryUpstreamAPI s now o =
         ⟨clearRetryFlag (applyUpstreamSuccess (setRetryFlag s) now d),
           true, [d], []⟩ ∧
       (applyUpstreamSuccess (setRetryFlag s) now d).isRetryingUpstream = true ∧
       (retryUpstreamAPI s now o).state =
         ⟨some ⟨d.success, d.count, d.data⟩, now, now, false⟩) := by
  refine ⟨?_, ?_, ?_, ?_⟩
  · intro s now o h
    simp [retryUpstreamAPI, h]
  · intro s h
    refine ⟨rfl, ?_, ?_⟩
    · intro now o
      cases ho : fetchFromUpstreamAPI o with
      | ok d => simp [retryUpstreamAPI, h, ho]
      | error m => simp [retryUpstreamAPI, h, ho]
    · intro now2 o2
      simp [retryUpstreamAPI, setRetryFlag]
  · intro s now o m h ho
    simp only [retryUpstreamAPI, h, Bool.false_eq_true, if_false, ho]
    rfl
  · intro s now o d h ho
    refine ⟨?_, rfl, ?_⟩
    · simp only [retryUpstreamAPI, h, Bool.false_eq_true, if_false, ho]
    · simp only [retryUpstreamAPI, h, Bool.false_eq_true, if_false, ho]
      rfl

/-- C7 witness: from a clear flag, with a failing upstream outcome, the
trigger makes one call, clears the flag and reschedules; an overlapping
trigger on the flag-set state is a no-op. -/
theorem retryUpstreamAPI_single_flight_witness :
    (⟨some ⟨true, 1, [⟨"e", 1⟩]⟩, 7, 7, false⟩ : CacheState).isRetryingUpstream = false ∧
    fetchFromUpstreamAPI (FetchOutcome.fail ("down")) = .error ("down") ∧
    retryUpstreamAPI ⟨some ⟨true, 1, [⟨"e", 1⟩]⟩, 7, 7, false⟩ 9 (.fail ("down")) =
      ⟨⟨some ⟨true, 1, [⟨"e", 1⟩]⟩, 7, 7, false⟩, true, [], [RETRY_INTERVAL]⟩ ∧
    retryUpstreamAPI (setRetryFlag ⟨some ⟨true, 1, [⟨"e", 1⟩]⟩, 7, 7, false⟩) 9 (.fail ("down")) =
      ⟨setRetryFlag ⟨some ⟨true, 1, [⟨"e", 1⟩]⟩, 7, 7, false⟩, false, [], []⟩ :=
  ⟨rfl, rfl,
   retryUpstreamAPI_single_flight.2.2.1 ⟨some ⟨true, 1, [⟨"e", 1⟩]⟩, 7, 7, false⟩
     9 (.fail ("down")) "down" rfl rfl,
   (retryUpstreamAPI_single_flight.2.1 ⟨some ⟨true, 1, [⟨"e", 1⟩]⟩, 7, 7, false⟩ rfl).2.2
     9 (.fail ("down"))⟩

lemma parsedDist_unique {pf : String → Option ℚ} {dist : ℚ → ℚ → ℚ → ℚ → ℚ}
    {elat elon : ℚ} {ra : ReliefAction} {x y : ℚ}
    (hx : parsedDist pf dist elat elon ra x) (hy : parsedDist pf dist elat elon ra y) :
    x = y := by
  rcases hx with ⟨a, b, ha, hb, hx⟩
  rcases hy with ⟨a2, b2, ha2, hb2, hy⟩
  rw [ha] at ha2
  rw [hb] at hb2
  injection ha2 with ha2
  injection hb2 with hb2
  rw [hx, hy, ha2, hb2]

/-- C2: whenever the matcher returns a pair (ra, d), ra is a candidate
whose parsed coordinates put it at distance d from the origin with
d within maxDistance, no candidate with validly parsed coordinates is
strictly closer, and every valid candidate scanned before ra is
strictly farther (ties go to the first encountered); the matcher
returns none exactly when every candidate is invalid or farther than
maxDistance --- in particular on the empty candidate list and when all
coordinates are invalid --- and the radius defaults to 1 km when not
supplied. -/
theorem findClosestReliefAction_correct (pf : String → Option ℚ)
    (dist : ℚ → ℚ → ℚ → ℚ → ℚ) (elat elon maxD : ℚ) (ras : List ReliefAction) :
    (∀ ra d, findClosestReliefAction pf dist elat elon ras maxD = some (ra, d) →
       ra ∈ ras ∧ parsedDist pf dist elat elon ra d ∧ d ≤ maxD ∧
       (∀ ra' ∈ ras, ∀ x, parsedDist pf dist elat elon ra' x → d ≤ x) ∧
       (∃ l₁ l₂, ras = l₁ ++ ra :: l₂ ∧
          ∀ ra' ∈ l₁, ∀ x, parsedDist pf dist elat elon ra' x → d < x)) ∧
    (findClosestReliefAction pf dist elat elon ras maxD = none ↔
       ∀ ra ∈ ras, ∀ x, parsedDist pf dist elat elon ra x → maxD < x) ∧
    (ras = [] → findClosestReliefAction pf dist elat elon ras maxD = none) ∧
    ((∀ ra ∈ ras, invalidCoords pf ra) →
       findClosestReliefAction pf dist elat elon ras maxD = none) ∧
    (findClosestReliefAction pf dist elat elon ras =
       findClosestReliefAction pf dist elat elon ras 1) := by
  have hnone : findClosestReliefAction pf dist elat elon ras maxD = none ↔
      ∀ ra ∈ ras, ∀ x, parsedDist pf dist elat elon ra x → maxD < x := by
    unfold findClosestReliefAction
    rw [findClosestAux_eq_none_iff]
    simp
  refine ⟨?_, hnone, ?_, ?_, rfl⟩
  · intro ra d h
    rcases findClosestAux_some_spec ras none ra d h with ⟨hacc, -⟩ |
        ⟨l₁, l₂, heq, hpd, hle, -, hbef, haft⟩
    · exact Option.noConfusion hacc
    · refine ⟨?_, hpd, hle, ?_, ⟨l₁, l₂, heq, ?_⟩⟩
      · rw [heq]
        exact List.mem_append_right _ (List.mem_cons_self _ _)
      · intro ra' hmem x hx
        by_cases hxle : x ≤ maxD
        · rw [heq] at hmem
          rcases List.mem_append.mp hmem with h1 | h2
          · exact le_of_lt (hbef ra' h1 x hx hxle)
          · rcases List.mem_cons.mp h2 with h2 | h2
            · subst h2
              exact le_of_eq (parsedDist_unique hpd hx)
            · exact haft ra' h2 x hx hxle
        · exact le_of_lt (lt_of_le_of_lt hle (not_le.mp hxle))
      · intro ra' h1 x hx
        by_cases hxle : x ≤ maxD
        · exact hbef ra' h1 x hx hxle
        · exact lt_of_le_of_lt hle (not_le.mp hxle)
  · intro h
    subst h
    rfl
  · intro hall
    rw [hnone]
    intro ra hmem x hx
    exact absurd hx (not_parsedDist_of_invalid (hall ra hmem))

/-- C2 witness: with a concrete parser and distance function, two valid
candidates at distances 3 and 1 and one invalid candidate, radius 2:
the matcher returns the distance-1 candidate, which indeed lies within
the radius. -/
theorem findClosestReliefAction_correct_witness :
    findClosestReliefAction
        (fun s => if s = "3" then some 3 else if s = "1" then some 1 else none)
        (fun _ _ c _ => c) 0 0 [⟨1, "3", "3"⟩, ⟨2, "1", "1"⟩, ⟨3, "x", "1"⟩] 2 =
      some (⟨2, "1", "1"⟩, 1) ∧
    (1 : ℚ) ≤ 2 :=
  ⟨by decide,
   ((findClosestReliefAction_correct
      (fun s => if s = "3" then some 3 else if s = "1" then some 1 else none)
      (fun _ _ c _ => c) 0 0 2 [⟨1, "3", "3"⟩, ⟨2, "1", "1"⟩, ⟨3, "x", "1"⟩]).1
      ⟨2, "1", "1"⟩ 1 (by decide)).2.2.1⟩

lemma findClosestAux_skip_invalid {pf : String → Option ℚ} {dist : ℚ → ℚ → ℚ → ℚ → ℚ}
    {elat elon maxD : ℚ} {ra : ReliefAction} {l₂ : List ReliefAction}
    (h : invalidCoords pf ra) :
    ∀ (l₁ : List ReliefAction) (acc : Option (ReliefAction × ℚ)),
      findClosestAux pf dist elat elon maxD (l₁ ++ ra :: l₂) acc =
        findClosestAux pf dist elat elon maxD (l₁ ++ l₂) acc := by
  intro l₁
  induction l₁ with
  | nil =>
    intro acc
    simp only [List.nil_append]
    exact findClosestAux_cons_invalid h l₂ acc
  | cons a rest ih =>
    intro acc
    simp only [List.cons_append]
    cases hlat : pf a.LocationLat with
    | none =>
      rw [findClosestAux_cons_invalid (Or.inl hlat), findClosestAux_cons_invalid (Or.inl hlat)]
      exact ih acc
    | some av =>
      cases hlon : pf a.LocationLong with
      | none =>
        rw [findClosestAux_cons_invalid (Or.inr hlon), findClosestAux_cons_invalid (Or.inr hlon)]
        exact ih acc
      | some bv =>
        by_cases hcond : dist elat elon av bv ≤ maxD ∧ ltCurrentMin (dist elat elon av bv) acc
        · rw [findClosestAux_cons_valid_take hlat hlon _ acc hcond,
            findClosestAux_cons_valid_take hlat hlon _ acc hcond]
          exact ih _
        · rw [findClosestAux_cons_valid_skip hlat hlon _ acc hcond,
            findClosestAux_cons_valid_skip hlat hlon _ acc hcond]
          exact ih acc

/-- C8: a candidate either of whose coordinate strings fails to parse
is skipped silently --- removing it from the candidate list does not
change the result at all --- and is never returned; the matcher is a
total function, so no input crashes it. -/
theorem findClosestReliefAction_skips_invalid (pf : String → Option ℚ)
    (dist : ℚ → ℚ → ℚ → ℚ → ℚ) (elat elon maxD : ℚ) :
    (∀ (l₁ : List ReliefAction) (ra : ReliefAction) (l₂ : List ReliefAction),
       invalidCoords pf ra →
       findClosestReliefAction pf dist elat elon (l₁ ++ ra :: l₂) maxD =
         findClosestReliefAction pf dist elat elon (l₁ ++ l₂) maxD) ∧
    (∀ (ras : List ReliefAction) (ra : ReliefAction) (d : ℚ),
       invalidCoords pf ra →
       findClosestReliefAction pf dist elat elon ras maxD ≠ some (ra, d)) := by
  constructor
  · intro l₁ ra l₂ h
    unfold findClosestReliefAction
    exact findClosestAux_skip_invalid h l₁ none
  · intro ras ra d h hres
    rcases findClosestAux_some_spec ras none ra d hres with ⟨hacc, -⟩ |
        ⟨-, -, -, hpd, -, -, -, -⟩
    · exact Option.noConfusion hacc
    · exact absurd hpd (not_parsedDist_of_invalid h)

/-- C8 witness: a concrete invalid candidate (latitude string x does
not parse) is skipped: dropping it leaves the result unchanged. -/
theorem findClosestReliefAction_skips_invalid_witness :
    invalidCoords (fun s => if s = "1" then some (1 : ℚ) else none) ⟨3, "x", "1"⟩ ∧
    findClosestReliefAction (fun s => if s = "1" then some (1 : ℚ) else none)
        (fun _ _ c _ => c) 0 0 ([⟨1, "1", "1"⟩] ++ ⟨3, "x", "1"⟩ :: []) 2 =
      findClosestReliefAction (fun s => if s = "1" then some (1 : ℚ) else none)
        (fun _ _ c _ => c) 0 0 ([⟨1, "1", "1"⟩] ++ []) 2 :=
  ⟨Or.inl (by decide),
   (findClosestReliefAction_skips_invalid
      (fun s => if s = "1" then some (1 : ℚ) else none)
      (fun _ _ c _ => c) 0 0 2).1 [⟨1, "1", "1"⟩] ⟨3, "x", "1"⟩ []
      (Or.inl (by decide))⟩
